import Mathlib

/-!
Shallow embedding of the evacuation-compliance rule engine
(`src/lib/engine`: `lookup.ts`, `rules/occupant-load.ts`, `rules/exits.ts`,
`rules/travel-distance.ts`, `rules/stairs.ts`, `evaluator.ts`).

Numbers measured in the source as JS `number` are embedded as `ℚ`
(all quantities the engine compares are exact decimals), floors as `ℤ`,
counts as `ℕ`.  JS string `includes` is embedded as infix search on the
character list; JS `toLowerCase` as `String.toLower` (the engine only
lower-cases before comparing against ASCII-stable markers).  Division by
zero never occurs on the paths the theorems below describe.
-/

/-- JS `hay.includes(needle)`. -/
def jsIncludes (hay needle : String) : Bool :=
  decide (needle.toList <:+: hay.toList)

/-- JS truthiness of an optional string (`undefined` and `""` are falsy). -/
def jsTruthyStr : Option String → Bool
  | none => false
  | some s => !s.isEmpty

/-- JS truthiness of an optional number (`undefined`, `null` and `0` are falsy). -/
def jsTruthyNum : Option ℚ → Bool
  | none => false
  | some q => q != 0

/-- JS `a || d` for an optional string `a` and a string default `d`. -/
def jsStrOr (a : Option String) (d : String) : String :=
  match a with
  | none => d
  | some s => if s.isEmpty then d else s

/-- JS `a || d` for an optional number `a` and a number default `d`. -/
def jsNumOr (a : Option ℚ) (d : ℚ) : ℚ :=
  match a with
  | none => d
  | some q => if q = 0 then d else q

-- ============================================================================
-- Finding types (types.ts)
-- ============================================================================

inductive FindingStatus
  | PASS | FAIL | REVIEW
  deriving DecidableEq, Repr

inductive FindingSeverity
  | BLOCKER | WARNING | INFO
  deriving DecidableEq, Repr

inductive FindingScope
  | building | storey | space | route | exit | stair
  deriving DecidableEq, Repr

structure Finding where
  rule_id : String
  status : FindingStatus
  severity : FindingSeverity
  scope : FindingScope
  subject_id : String
  subject_name : Option String
  measured : Option ℚ
  required : Option ℚ
  explanation_bg : String
  legal_reference : String
  details : List (String × String)
  deriving DecidableEq, Repr

structure EvaluationSummary where
  total_rules : ℕ
  passed : ℕ
  failed : ℕ
  review : ℕ
  blockers : ℕ
  deriving DecidableEq, Repr

structure EvaluationResult where
  project_id : String
  evaluated_at : String
  dataset_version : String
  summary : EvaluationSummary
  findings : List Finding
  deriving DecidableEq, Repr

-- ============================================================================
-- Project input types (types.ts)
-- ============================================================================

inductive StairType
  | enclosed | «open» | external | smoke_protected | spiral
  deriving DecidableEq, Repr

inductive ExitType
  | door | stair | external
  deriving DecidableEq, Repr

inductive EvacuationType
  | single_direction | multiple_directions
  deriving DecidableEq, Repr

structure BuildingInput where
  name : String
  height_m : Option ℚ
  height_category : String
  functional_class : String
  fire_resistance_rating : Option String
  has_sprinklers : Bool
  has_smoke_control : Bool
  has_fire_alarm : Bool
  is_single_storey : Bool
  deriving DecidableEq, Repr

structure SpaceInput where
  id : String
  name : String
  purpose : String
  floor : ℤ
  area_m2 : ℚ
  is_underground : Bool
  fire_hazard_category : Option String
  occupants_override : Option ℚ
  deriving DecidableEq, Repr

structure RouteInput where
  id : String
  name : Option String
  from_space_id : String
  to_exit_id : String
  length_m : ℚ
  has_dead_end : Bool
  dead_end_length_m : Option ℚ
  evacuation_type : EvacuationType
  deriving DecidableEq, Repr

structure ExitInput where
  id : String
  name : String
  type : ExitType
  width_m : ℚ
  serves_space_ids : List String
  serves_floors : List ℤ
  has_panic_hardware : Bool
  deriving DecidableEq, Repr

structure StairInput where
  id : String
  name : String
  type : StairType
  width_m : ℚ
  serves_floors : List ℤ
  step_width_m : Option ℚ
  step_height_m : Option ℚ
  is_naturally_lit : Bool
  has_smoke_vent : Bool
  deriving DecidableEq, Repr

structure ProjectInput where
  id : String
  name : String
  created_at : String
  updated_at : String
  building : BuildingInput
  spaces : List SpaceInput
  routes : List RouteInput
  exits : List ExitInput
  stairs : List StairInput
  deriving DecidableEq, Repr

-- ============================================================================
-- Dataset types (types.ts)
-- ============================================================================

structure OccupantLoadEntry where
  id : ℤ
  functional_class : String
  space_type : String
  space_type_en : String
  area_per_person_m2 : ℚ
  notes : Option String
  article_ref : String
  deriving DecidableEq, Repr

structure MinExitsEntry where
  functional_class_group : String
  category : Option String
  min_occupants : ℚ
  max_occupants : Option ℚ
  max_area_m2 : Option ℚ
  underground_only : Bool
  min_exits : ℚ
  min_width_m : Option ℚ
  notes : Option String
  article_ref : String
  deriving DecidableEq, Repr

structure TravelDistanceEntry where
  id : ℤ
  context : String
  evacuation_type : EvacuationType
  max_distance_m : ℚ
  conditions : Option String
  article_ref : String
  deriving DecidableEq, Repr

structure DeadEndEntry where
  id : ℤ
  context : String
  max_distance_m : ℚ
  requires_two_exits : Bool
  additional_conditions : Option String
  article_ref : String
  deriving DecidableEq, Repr

structure MinWidthEntry where
  element_type : String
  context : String
  min_width_m : Option ℚ
  max_width_m : Option ℚ
  width_per_100_people_m : Option ℚ
  min_step_width_m : Option ℚ
  max_height_m : Option ℚ
  min_inner_diameter_m : Option ℚ
  notes : Option String
  article_ref : String
  deriving DecidableEq, Repr

structure DatasetMeta where
  ordinance : String
  version : String
  effective_from : String
  source : String
  last_updated : String
  notes : String
  deriving DecidableEq, Repr

structure DatasetTables where
  occupant_load_table_8 : List OccupantLoadEntry
  min_exits_by_occupants : List MinExitsEntry
  max_travel_distance : List TravelDistanceEntry
  dead_end_limits : List DeadEndEntry
  min_widths : List MinWidthEntry
  deriving DecidableEq, Repr

structure OrdinanceDataset where
  meta : DatasetMeta
  tables : DatasetTables
  deriving DecidableEq, Repr

structure EvaluationContext where
  project : ProjectInput
  datasets : OrdinanceDataset
  deriving DecidableEq, Repr

inductive OccupantSource
  | calculated | override
  deriving DecidableEq, Repr

structure ComputedSpace where
  toSpaceInput : SpaceInput
  computed_occupants : ℚ
  occupant_source : OccupantSource
  area_per_person_m2 : Option ℚ
  deriving DecidableEq, Repr

-- ============================================================================
-- Dataset lookups (lookup.ts)
-- ============================================================================

/-- `getFunctionalClassGroup` (lookup.ts): first two characters of the code. -/
def getFunctionalClassGroup (functionalClass : String) : String :=
  functionalClass.take 2

/-- `isIndustrialClass` (lookup.ts): JS `startsWith` as a character-list
prefix test. -/
def isIndustrialClass (functionalClass : String) : Bool :=
  decide ("Ф5".toList <+: functionalClass.toList)

/-- `lookupOccupantLoadFactor` (lookup.ts). -/
def lookupOccupantLoadFactor (table : List OccupantLoadEntry)
    (functionalClass : String) (spaceType : Option String)
    (isGroundFloor : Option Bool) : Option OccupantLoadEntry :=
  let exactMatch : Option OccupantLoadEntry :=
    match spaceType with
    | some st =>
        if st.isEmpty then none
        else table.find? fun e =>
          e.functional_class == functionalClass &&
          jsIncludes e.space_type.toLower st.toLower
    | none => none
  match exactMatch with
  | some m => some m
  | none =>
    if functionalClass == "Ф3.1" then
      let entries := table.filter fun e => e.functional_class == "Ф3.1"
      let byFloor : Option OccupantLoadEntry :=
        match isGroundFloor with
        | some g =>
            entries.find? fun e =>
              if g then jsIncludes e.space_type "кота терен"
              else jsIncludes e.space_type "извън"
        | none => none
      match byFloor with
      | some m => some m
      | none =>
          match entries.find? fun e => jsIncludes e.space_type "кота терен" with
          | some m => some m
          | none => entries.head?
    else
      match table.find? fun e => e.functional_class == functionalClass with
      | some m => some m
      | none =>
          table.find? fun e =>
            e.functional_class == "general" && jsIncludes e.space_type.toLower "офис"

/-- The row filter inside `lookupMinExits` (lookup.ts). -/
def minExitsMatches (functionalClass : String) (occupants area_m2 : ℚ)
    (isUnderground : Bool) (fireHazardCategory : Option String)
    (entry : MinExitsEntry) : Bool :=
  (if isIndustrialClass functionalClass then
    entry.functional_class_group == "Ф5" &&
    !(jsTruthyStr entry.category && jsTruthyStr fireHazardCategory &&
      entry.category != fireHazardCategory)
  else
    entry.functional_class_group == "Ф1-Ф4") &&
  !(entry.underground_only && !isUnderground) &&
  decide (entry.min_occupants ≤ occupants) &&
  (match entry.max_occupants with
   | some mx => decide (occupants ≤ mx)
   | none => true) &&
  (match entry.max_area_m2 with
   | some ma => decide (area_m2 ≤ ma)
   | none => true)

/-- `lookupMinExits` (lookup.ts): filter then `reduce` keeping the row with
the strictly smaller `min_exits` (so the first row attaining the minimum). -/
def lookupMinExits (table : List MinExitsEntry) (functionalClass : String)
    (occupants area_m2 : ℚ) (isUnderground : Bool)
    (fireHazardCategory : Option String) : Option MinExitsEntry :=
  let relevantEntries := table.filter
    (minExitsMatches functionalClass occupants area_m2 isUnderground fireHazardCategory)
  match relevantEntries with
  | [] => none
  | h :: t => some (t.foldl (fun m e => if e.min_exits < m.min_exits then e else m) h)

inductive TravelContext
  | room | corridor
  deriving DecidableEq, Repr

structure SpecialConditions where
  isSingleStorey : Option Bool
  fireResistanceRating : Option String
  hasSprinklers : Option Bool
  hasFireAlarm : Option Bool
  deriving DecidableEq, Repr

/-- `lookupMaxTravelDistance` (lookup.ts). -/
def lookupMaxTravelDistance (table : List TravelDistanceEntry)
    (evacuationType : EvacuationType) (context : TravelContext)
    (fireHazardCategory : Option String)
    (hasSpecialConditions : Option SpecialConditions) : Option TravelDistanceEntry :=
  let special1 : Option TravelDistanceEntry :=
    if (fireHazardCategory == some "Ф5Г" || fireHazardCategory == some "Ф5Д") &&
       (match hasSpecialConditions with
        | some c => c.isSingleStorey == some true
        | none => false) then
      table.find? fun e =>
        e.evacuation_type == evacuationType &&
        jsIncludes e.context "Ф5Г/Ф5Д" && jsIncludes e.context "едноетажна"
    else none
  match special1 with
  | some m => some m
  | none =>
    let special2 : Option TravelDistanceEntry :=
      if fireHazardCategory == some "Ф5В" &&
         (match hasSpecialConditions with
          | some c => c.hasSprinklers == some true && c.hasFireAlarm == some true
          | none => false) then
        table.find? fun e =>
          e.evacuation_type == evacuationType &&
          jsIncludes e.context "Ф5В" && jsIncludes e.context "ПГИ"
      else none
    match special2 with
    | some m => some m
    | none =>
      let contextText :=
        match context with
        | .room => "Вътре в помещение"
        | .corridor => "До стълбище/защитена зона"
      table.find? fun e =>
        e.evacuation_type == evacuationType && e.context == contextText

/-- `lookupMinWidth` (lookup.ts). -/
def lookupMinWidth (table : List MinWidthEntry) (elementType : String)
    (occupants : ℚ) (isUnderground : Bool) : Option MinWidthEntry :=
  let entries := table.filter fun e => e.element_type == elementType
  if entries.isEmpty then none
  else if elementType == "corridor" || (elementType == "stair" && decide (occupants > 200)) then
    match entries.find? (fun e =>
        if isUnderground then jsIncludes e.context.toLower "подземни"
        else jsIncludes e.context.toLower "надземни") with
    | some m => some m
    | none => entries.head?
  else if elementType == "exit_door" then
    if occupants ≤ 15 then entries.find? fun e => jsIncludes e.context "15"
    else if occupants ≤ 50 then
      entries.find? fun e => jsIncludes e.context "16-50" || jsIncludes e.context "50"
    else if occupants ≤ 200 then entries.find? fun e => jsIncludes e.context "200"
    else entries.find? fun e => jsIncludes e.context "Над 200"
  else if elementType == "spiral_stair" then
    if occupants ≤ 50 then entries.find? fun e => jsIncludes e.context "16-50"
    else entries.find? fun e =>
      jsIncludes e.context "Над 50" || jsIncludes e.context "50 човека"
  else entries.head?

-- ============================================================================
-- Occupant load (rules/occupant-load.ts)
-- ============================================================================

/-- Stringification of an optional number for the `details` map. -/
def optNumStr : Option ℚ → String
  | none => "null"
  | some q => toString q

/-- Stringification of an optional string for the `details` map. -/
def optStrStr : Option String → String
  | none => "null"
  | some s => s

/-- `calculateOccupantLoad` (rules/occupant-load.ts). -/
def calculateOccupantLoad (space : SpaceInput) (ctx : EvaluationContext) : ComputedSpace :=
  let fallback : ComputedSpace :=
    let isGroundFloor := space.floor == 0
    match lookupOccupantLoadFactor ctx.datasets.tables.occupant_load_table_8
        ctx.project.building.functional_class (some space.purpose) (some isGroundFloor) with
    | none =>
        { toSpaceInput := space
          computed_occupants := ((⌈space.area_m2 / 5⌉ : ℤ) : ℚ)
          occupant_source := .calculated
          area_per_person_m2 := some 5 }
    | some loadEntry =>
        { toSpaceInput := space
          computed_occupants := ((⌈space.area_m2 / loadEntry.area_per_person_m2⌉ : ℤ) : ℚ)
          occupant_source := .calculated
          area_per_person_m2 := some loadEntry.area_per_person_m2 }
  match space.occupants_override with
  | some o =>
      if 0 < o then
        { toSpaceInput := space
          computed_occupants := o
          occupant_source := .override
          area_per_person_m2 := none }
      else fallback
  | none => fallback

/-- `calculateTotalOccupants` (rules/occupant-load.ts). -/
def calculateTotalOccupants (ctx : EvaluationContext) : ℚ × List ComputedSpace :=
  let computedSpaces := ctx.project.spaces.map fun space => calculateOccupantLoad space ctx
  (computedSpaces.foldl (fun sum space => sum + space.computed_occupants) 0, computedSpaces)

/-- `evaluateOccupantLoad` (rules/occupant-load.ts). -/
def evaluateOccupantLoad (ctx : EvaluationContext) : List Finding :=
  ctx.project.spaces.flatMap fun space =>
    let computed := calculateOccupantLoad space ctx
    let loadEntry := lookupOccupantLoadFactor ctx.datasets.tables.occupant_load_table_8
      ctx.project.building.functional_class (some space.purpose) (some (space.floor == 0))
    let info : Finding :=
      { rule_id := "EGR-OCC-001"
        status := .PASS
        severity := .INFO
        scope := .space
        subject_id := space.id
        subject_name := some space.name
        measured := some computed.computed_occupants
        required := none
        explanation_bg :=
          match computed.occupant_source with
          | .override =>
              "Брой хора: " ++ toString computed.computed_occupants ++ " (зададено ръчно)"
          | .calculated =>
              "Брой хора: " ++ toString computed.computed_occupants ++ " (изчислено от " ++
              toString space.area_m2 ++ " m² / " ++ optNumStr computed.area_per_person_m2 ++
              " m²/човек)"
        legal_reference :=
          jsStrOr (loadEntry.map (·.article_ref)) "Наредба № Iз-1971, чл. 36, табл. 8"
        details :=
          [("area_m2", toString space.area_m2),
           ("area_per_person_m2", optNumStr computed.area_per_person_m2),
           ("source", match computed.occupant_source with
                      | .override => "override"
                      | .calculated => "calculated"),
           ("functional_class", ctx.project.building.functional_class)] }
    let warn : List Finding :=
      if loadEntry == none && computed.occupant_source == .calculated then
        [{ rule_id := "EGR-OCC-002"
           status := .REVIEW
           severity := .WARNING
           scope := .space
           subject_id := space.id
           subject_name := some space.name
           measured := none
           required := none
           explanation_bg :=
             "Не е намерен коефициент за гъстота на обитаване за клас " ++
             ctx.project.building.functional_class ++ " и предназначение \"" ++
             space.purpose ++ "\". Използвана е стойност по подразбиране (5.0 m²/човек)."
           legal_reference := "Наредба № Iз-1971, чл. 36, табл. 8"
           details :=
             [("purpose", space.purpose),
              ("functional_class", ctx.project.building.functional_class),
              ("default_used", toString (5 : ℚ))] }]
      else []
    info :: warn

-- ============================================================================
-- Exits (rules/exits.ts)
-- ============================================================================

/-- `getExitsForSpace` (rules/exits.ts). -/
def getExitsForSpace (space : SpaceInput) (exits : List ExitInput) : List ExitInput :=
  exits.filter fun exit0 => exit0.serves_space_ids.contains space.id

/-- `evaluateMinExitsForSpace` (rules/exits.ts). -/
def evaluateMinExitsForSpace (space : SpaceInput) (ctx : EvaluationContext) : List Finding :=
  let computed := calculateOccupantLoad space ctx
  let occupants := computed.computed_occupants
  let actualExits : ℚ := ((getExitsForSpace space ctx.project.exits).length : ℚ)
  match lookupMinExits ctx.datasets.tables.min_exits_by_occupants
      ctx.project.building.functional_class occupants space.area_m2
      space.is_underground space.fire_hazard_category with
  | none =>
      [{ rule_id := "EGR-EXIT-001"
         status := .REVIEW
         severity := .WARNING
         scope := .space
         subject_id := space.id
         subject_name := some space.name
         measured := some actualExits
         required := none
         explanation_bg :=
           "Не е намерено изискване за минимален брой изходи за " ++ toString occupants ++
           " човека в помещение от клас " ++ ctx.project.building.functional_class ++
           ". Моля, проверете ръчно."
         legal_reference := "Наредба № Iз-1971, чл. 41-42"
         details := [("occupants", toString occupants), ("area_m2", toString space.area_m2)] }]
  | some exitRequirement =>
      let requiredExits := exitRequirement.min_exits
      let status : FindingStatus := if actualExits ≥ requiredExits then .PASS else .FAIL
      [{ rule_id := "EGR-EXIT-001"
         status := status
         severity := if status == .FAIL then .BLOCKER else .INFO
         scope := .space
         subject_id := space.id
         subject_name := some space.name
         measured := some actualExits
         required := some requiredExits
         explanation_bg :=
           if status == .PASS then
             "Брой евакуационни изходи (" ++ toString actualExits ++
             ") отговаря на изискването (мин. " ++ toString requiredExits ++ ") за " ++
             toString occupants ++ " човека."
           else
             "Недостатъчен брой евакуационни изходи. Налични: " ++ toString actualExits ++
             ", Изискване: мин. " ++ toString requiredExits ++ " за " ++
             toString occupants ++ " човека."
         legal_reference := exitRequirement.article_ref
         details :=
           [("occupants", toString occupants),
            ("area_m2", toString space.area_m2),
            ("is_underground", toString space.is_underground),
            ("functional_class", ctx.project.building.functional_class)] }]

/-- The spaces an exit serves, in project order (rules/exits.ts). -/
def servedSpacesOfExit (exit0 : ExitInput) (ctx : EvaluationContext) : List SpaceInput :=
  ctx.project.spaces.filter fun s => exit0.serves_space_ids.contains s.id

/-- Total occupants served by an exit (the accumulation loop in
`evaluateExitWidth`, rules/exits.ts). -/
def exitTotalOccupants (exit0 : ExitInput) (ctx : EvaluationContext) : ℚ :=
  (servedSpacesOfExit exit0 ctx).foldl
    (fun acc space => acc + (calculateOccupantLoad space ctx).computed_occupants) 0

/-- `evaluateExitWidth` (rules/exits.ts).  Note the early return on a width
lookup miss: the panic-hardware check is then never reached. -/
def evaluateExitWidth (exit0 : ExitInput) (ctx : EvaluationContext) : List Finding :=
  let totalOccupants := exitTotalOccupants exit0 ctx
  let hasUnderground := (servedSpacesOfExit exit0 ctx).any (·.is_underground)
  match lookupMinWidth ctx.datasets.tables.min_widths "exit_door" totalOccupants hasUnderground with
  | none =>
      [{ rule_id := "EGR-WIDTH-001"
         status := .REVIEW
         severity := .WARNING
         scope := .exit
         subject_id := exit0.id
         subject_name := some exit0.name
         measured := some exit0.width_m
         required := none
         explanation_bg :=
           "Не е намерено изискване за минимална широчина за " ++
           toString totalOccupants ++ " човека."
         legal_reference := "Наредба № Iз-1971, чл. 41"
         details := [("totalOccupants", toString totalOccupants)] }]
  | some widthReq =>
      let minWidth := jsNumOr widthReq.min_width_m (9/10)
      let status : FindingStatus := if exit0.width_m ≥ minWidth then .PASS else .FAIL
      let widthFinding : Finding :=
        { rule_id := "EGR-WIDTH-001"
          status := status
          severity := if status == .FAIL then .BLOCKER else .INFO
          scope := .exit
          subject_id := exit0.id
          subject_name := some exit0.name
          measured := some exit0.width_m
          required := some minWidth
          explanation_bg :=
            if status == .PASS then
              "Широчина на изхода (" ++ toString exit0.width_m ++
              " m) отговаря на изискването (мин. " ++ toString minWidth ++ " m) за " ++
              toString totalOccupants ++ " човека."
            else
              "Недостатъчна широчина на изхода. Измерена: " ++ toString exit0.width_m ++
              " m, Изискване: мин. " ++ toString minWidth ++ " m за " ++
              toString totalOccupants ++ " човека."
          legal_reference := widthReq.article_ref
          details :=
            [("totalOccupants", toString totalOccupants),
             ("serves_spaces", toString exit0.serves_space_ids)] }
      let splitWarning : List Finding :=
        if totalOccupants > 50 && jsTruthyNum widthReq.max_width_m then
          let maxWidth := widthReq.max_width_m.getD 0
          if exit0.width_m > maxWidth then
            [{ rule_id := "EGR-WIDTH-002"
               status := .REVIEW
               severity := .WARNING
               scope := .exit
               subject_id := exit0.id
               subject_name := some exit0.name
               measured := some exit0.width_m
               required := some maxWidth
               explanation_bg :=
                 "Широчината на изхода (" ++ toString exit0.width_m ++
                 " m) надвишава максималната единична широчина (" ++ toString maxWidth ++
                 " m). Препоръчва се разделяне на изхода."
               legal_reference := "Наредба № Iз-1971, чл. 41, ал. 6"
               details := [("totalOccupants", toString totalOccupants)] }]
          else []
        else []
      let panicFinding : List Finding :=
        if totalOccupants > 100 && !exit0.has_panic_hardware then
          [{ rule_id := "EGR-EXIT-003"
             status := .FAIL
             severity := .BLOCKER
             scope := .exit
             subject_id := exit0.id
             subject_name := some exit0.name
             measured := none
             required := none
             explanation_bg :=
               "Изходът обслужва над 100 човека (" ++ toString totalOccupants ++
               ") и изисква брава тип \"антипаник\" съгласно БДС EN 1125."
             legal_reference := "Наредба № Iз-1971, чл. 43, ал. 2"
             details :=
               [("totalOccupants", toString totalOccupants),
                ("has_panic_hardware", toString exit0.has_panic_hardware)] }]
        else []
      widthFinding :: (splitWarning ++ panicFinding)

/-- `evaluateExits` (rules/exits.ts). -/
def evaluateExits (ctx : EvaluationContext) : List Finding :=
  (ctx.project.spaces.flatMap fun space => evaluateMinExitsForSpace space ctx) ++
  (ctx.project.exits.flatMap fun exit0 => evaluateExitWidth exit0 ctx)

-- ============================================================================
-- Travel distance (rules/travel-distance.ts)
-- ============================================================================

/-- `evaluateRouteDistance` (rules/travel-distance.ts). -/
def evaluateRouteDistance (route : RouteInput) (ctx : EvaluationContext) : List Finding :=
  let fromSpace := ctx.project.spaces.find? fun s => s.id == route.from_space_id
  let distanceEntry := lookupMaxTravelDistance ctx.datasets.tables.max_travel_distance
    route.evacuation_type .room (fromSpace.bind (·.fire_hazard_category))
    (some { isSingleStorey := some ctx.project.building.is_single_storey
            fireResistanceRating := none
            hasSprinklers := some ctx.project.building.has_sprinklers
            hasFireAlarm := some ctx.project.building.has_fire_alarm })
  let evacText := match route.evacuation_type with
    | .single_direction => "single_direction"
    | .multiple_directions => "multiple_directions"
  match distanceEntry with
  | none =>
      [{ rule_id := "EGR-TRAVEL-001"
         status := .REVIEW
         severity := .WARNING
         scope := .route
         subject_id := route.id
         subject_name := some (jsStrOr route.name ("Маршрут " ++ route.id))
         measured := some route.length_m
         required := none
         explanation_bg :=
           "Не е намерено изискване за максимална дължина на евакуационен път от тип \"" ++
           evacText ++ "\"."
         legal_reference := "Наредба № Iз-1971, чл. 44"
         details :=
           [("from_space_id", route.from_space_id),
            ("to_exit_id", route.to_exit_id),
            ("evacuation_type", evacText)] }]
  | some distanceEntry =>
      let maxDistance := distanceEntry.max_distance_m
      let status : FindingStatus := if route.length_m ≤ maxDistance then .PASS else .FAIL
      let dirText := match route.evacuation_type with
        | .single_direction => "в една посока"
        | .multiple_directions => "в две или повече посоки"
      [{ rule_id := "EGR-TRAVEL-001"
         status := status
         severity := if status == .FAIL then .BLOCKER else .INFO
         scope := .route
         subject_id := route.id
         subject_name :=
           some (jsStrOr route.name
             ("Маршрут от " ++ jsStrOr (fromSpace.map (·.name)) route.from_space_id))
         measured := some route.length_m
         required := some maxDistance
         explanation_bg :=
           if status == .PASS then
             "Дължина на евакуационния път (" ++ toString route.length_m ++
             " m) е в рамките на допустимата (" ++ toString maxDistance ++
             " m) за евакуация " ++ dirText ++ "."
           else
             "Превишена допустима дължина на евакуационния път. Измерена: " ++
             toString route.length_m ++ " m, Допустима: " ++ toString maxDistance ++
             " m за евакуация " ++ dirText ++ "."
         legal_reference := distanceEntry.article_ref
         details :=
           [("from_space", optStrStr (fromSpace.map (·.name))),
            ("evacuation_type", evacText),
            ("context", distanceEntry.context),
            ("conditions", optStrStr distanceEntry.conditions)] }]

/-- `evaluateDeadEndLength` (rules/travel-distance.ts). -/
def evaluateDeadEndLength (route : RouteInput) (ctx : EvaluationContext) : List Finding :=
  match route.dead_end_length_m with
  | none => []
  | some deadEndLength =>
    if !route.has_dead_end then []
    else
      let fromSpace := ctx.project.spaces.find? fun s => s.id == route.from_space_id
      let deadEndLimits := ctx.datasets.tables.dead_end_limits
      let chosen : Option DeadEndEntry :=
        if fromSpace.bind (·.fire_hazard_category) == some "Ф5Г" ||
           fromSpace.bind (·.fire_hazard_category) == some "Ф5Д" then
          deadEndLimits.find? fun e => jsIncludes e.context "Ф5Г/Ф5Д"
        else
          deadEndLimits.find? fun e =>
            jsIncludes e.context "съседни помещения Ф5В" || jsIncludes e.context "Ф1-Ф4"
      let maxDeadEnd := match chosen with | some e => e.max_distance_m | none => 20
      let articleRef := match chosen with
        | some e => e.article_ref
        | none => "Наредба № Iз-1971, чл. 40, ал. 3"
      let contextText := match chosen with
        | some e => e.context
        | none => "Вътрешно помещение"
      let status : FindingStatus := if deadEndLength ≤ maxDeadEnd then .PASS else .FAIL
      [{ rule_id := "EGR-TRAVEL-002"
         status := status
         severity := if status == .FAIL then .BLOCKER else .INFO
         scope := .route
         subject_id := route.id
         subject_name :=
           some (jsStrOr route.name
             ("Маршрут от " ++ jsStrOr (fromSpace.map (·.name)) route.from_space_id))
         measured := some deadEndLength
         required := some maxDeadEnd
         explanation_bg :=
           if status == .PASS then
             "Дължина на задънен коридор (" ++ toString deadEndLength ++
             " m) е в рамките на допустимата (" ++ toString maxDeadEnd ++ " m)."
           else
             "Превишена допустима дължина на задънен коридор. Измерена: " ++
             toString deadEndLength ++ " m, Допустима: " ++ toString maxDeadEnd ++ " m."
         legal_reference := articleRef
         details :=
           [("context", contextText),
            ("from_space", optStrStr (fromSpace.map (·.name))),
            ("fire_hazard_category", optStrStr (fromSpace.bind (·.fire_hazard_category)))] }]

/-- `evaluateTravelDistance` (rules/travel-distance.ts). -/
def evaluateTravelDistance (ctx : EvaluationContext) : List Finding :=
  ctx.project.routes.flatMap fun route =>
    evaluateRouteDistance route ctx ++ evaluateDeadEndLength route ctx

-- ============================================================================
-- Stairs (rules/stairs.ts)
-- ============================================================================

/-- `getOccupantsServedByStair` (rules/stairs.ts). -/
def getOccupantsServedByStair (stair : StairInput) (ctx : EvaluationContext) : ℚ :=
  (ctx.project.spaces.filter fun space => stair.serves_floors.contains space.floor).foldl
    (fun acc space => acc + (calculateOccupantLoad space ctx).computed_occupants) 0

/-- `evaluateStairWidth` (rules/stairs.ts). -/
def evaluateStairWidth (stair : StairInput) (ctx : EvaluationContext) : List Finding :=
  let totalOccupants := getOccupantsServedByStair stair ctx
  let defaultPair : ℚ × String := (9/10, "Наредба № Iз-1971, чл. 45")
  let pair : ℚ × String :=
    if stair.type == .spiral then
      if totalOccupants ≤ 50 then (12/10, "Наредба № Iз-1971, чл. 52, ал. 1")
      else (15/10, "Наредба № Iз-1971, чл. 52, ал. 2")
    else
      let hasUnderground := ctx.project.spaces.any fun s =>
        stair.serves_floors.contains s.floor && s.is_underground
      if totalOccupants > 200 then
        let widthPer100 : ℚ := if hasUnderground then 12/10 else 8/10
        (max (9/10) ((totalOccupants / 100) * widthPer100),
         if hasUnderground then "Наредба № Iз-1971, чл. 45, ал. 1, т. 2"
         else "Наредба № Iз-1971, чл. 45, ал. 1, т. 1")
      else defaultPair
  let minWidth := pair.1
  let articleRef := pair.2
  let status : FindingStatus := if stair.width_m ≥ minWidth then .PASS else .FAIL
  let stairTypeText := match stair.type with
    | .enclosed => "enclosed"
    | .«open» => "open"
    | .external => "external"
    | .smoke_protected => "smoke_protected"
    | .spiral => "spiral"
  let widthFinding : Finding :=
    { rule_id := "EGR-STAIR-001"
      status := status
      severity := if status == .FAIL then .BLOCKER else .INFO
      scope := .stair
      subject_id := stair.id
      subject_name := some stair.name
      measured := some stair.width_m
      required := some (((⌊minWidth * 100 + 1/2⌋ : ℤ) : ℚ) / 100)
      explanation_bg :=
        if status == .PASS then
          "Широчина на стълбищното рамо (" ++ toString stair.width_m ++
          " m) отговаря на изискването (мин. " ++ toString minWidth ++ " m) за " ++
          toString totalOccupants ++ " човека."
        else
          "Недостатъчна широчина на стълбищното рамо. Измерена: " ++
          toString stair.width_m ++ " m, Изискване: мин. " ++ toString minWidth ++
          " m за " ++ toString totalOccupants ++ " човека."
      legal_reference := articleRef
      details :=
        [("totalOccupants", toString totalOccupants),
         ("stair_type", stairTypeText),
         ("serves_floors", toString stair.serves_floors)] }
  let handrailWarning : List Finding :=
    if stair.width_m > 24/10 then
      [{ rule_id := "EGR-STAIR-002"
         status := .REVIEW
         severity := .WARNING
         scope := .stair
         subject_id := stair.id
         subject_name := some stair.name
         measured := some stair.width_m
         required := some (24/10)
         explanation_bg :=
           "Широчината на стълбищното рамо (" ++ toString stair.width_m ++
           " m) надвишава 2.4 m. Необходимо е разделяне с парапети."
         legal_reference := "Наредба № Iз-1971, чл. 45, ал. 7"
         details := [("stair_type", stairTypeText)] }]
    else []
  widthFinding :: handrailWarning

/-- `evaluateStairSteps` (rules/stairs.ts). -/
def evaluateStairSteps (stair : StairInput) (_ctx : EvaluationContext) : List Finding :=
  let stairTypeText := match stair.type with
    | .enclosed => "enclosed"
    | .«open» => "open"
    | .external => "external"
    | .smoke_protected => "smoke_protected"
    | .spiral => "spiral"
  let stepWidthFindings : List Finding :=
    match stair.step_width_m with
    | none => []
    | some stepWidth =>
        let pair : ℚ × String :=
          if stair.type == .spiral then (23/100, "Наредба № Iз-1971, чл. 52, ал. 1, т. 1")
          else (25/100, "Наредба № Iз-1971, чл. 47, ал. 4")
        let minStepWidth := pair.1
        let status : FindingStatus := if stepWidth ≥ minStepWidth then .PASS else .FAIL
        [{ rule_id := "EGR-STAIR-003"
           status := status
           severity := if status == .FAIL then .BLOCKER else .INFO
           scope := .stair
           subject_id := stair.id
           subject_name := some stair.name
           measured := some stepWidth
           required := some minStepWidth
           explanation_bg :=
             if status == .PASS then
               "Широчина на стъпалото (" ++ toString stepWidth ++
               ") отговаря на изискването (мин. " ++ toString minStepWidth ++ " m)."
             else
               "Недостатъчна широчина на стъпалото. Измерена: " ++ toString stepWidth ++
               " m, Изискване: мин. " ++ toString minStepWidth ++ " m."
           legal_reference := pair.2
           details := [("stair_type", stairTypeText)] }]
  let stepHeightFindings : List Finding :=
    match stair.step_height_m with
    | none => []
    | some stepHeight =>
        let maxStepHeight : ℚ := if stair.type == .external then 25/100 else 22/100
        let articleRef := if stair.type == .external then "Наредба № Iз-1971, чл. 51, ал. 2"
          else "Наредба № Iз-1971, чл. 47, ал. 4"
        let status : FindingStatus := if stepHeight ≤ maxStepHeight then .PASS else .FAIL
        [{ rule_id := "EGR-STAIR-004"
           status := status
           severity := if status == .FAIL then .BLOCKER else .INFO
           scope := .stair
           subject_id := stair.id
           subject_name := some stair.name
           measured := some stepHeight
           required := some maxStepHeight
           explanation_bg :=
             if status == .PASS then
               "Височина на стъпалото (" ++ toString stepHeight ++
               ") отговаря на изискването (макс. " ++ toString maxStepHeight ++ " m)."
             else
               "Превишена височина на стъпалото. Измерена: " ++ toString stepHeight ++
               " m, Изискване: макс. " ++ toString maxStepHeight ++ " m."
           legal_reference := articleRef
           details := [("stair_type", stairTypeText)] }]
  stepWidthFindings ++ stepHeightFindings

/-- `evaluateStairLighting` (rules/stairs.ts). -/
def evaluateStairLighting (stair : StairInput) (_ctx : EvaluationContext) : List Finding :=
  if stair.type == .enclosed && stair.serves_floors.length > 3 then
    if !stair.is_naturally_lit && !stair.has_smoke_vent then
      [{ rule_id := "EGR-STAIR-005"
         status := .FAIL
         severity := .BLOCKER
         scope := .stair
         subject_id := stair.id
         subject_name := some stair.name
         measured := none
         required := none
         explanation_bg :=
           "Вътрешното евакуационно стълбище обслужва повече от три етажа (" ++
           toString stair.serves_floors.length ++
           ") и не е осигурено с естествено осветление или димоотвеждане."
         legal_reference := "Наредба № Iз-1971, чл. 50, ал. 2"
         details :=
           [("serves_floors", toString stair.serves_floors),
            ("is_naturally_lit", toString stair.is_naturally_lit),
            ("has_smoke_vent", toString stair.has_smoke_vent)] }]
    else []
  else []

/-- The per-stair findings of the loop body in `evaluateStairs` (rules/stairs.ts). -/
def stairFindings (stair : StairInput) (ctx : EvaluationContext) : List Finding :=
  evaluateStairWidth stair ctx ++ evaluateStairSteps stair ctx ++ evaluateStairLighting stair ctx

/-- `evaluateStairs` (rules/stairs.ts). -/
def evaluateStairs (ctx : EvaluationContext) : List Finding :=
  ctx.project.stairs.flatMap fun stair => stairFindings stair ctx

-- ============================================================================
-- Evaluator / orchestrator (evaluator.ts)
-- ============================================================================

/-- `severityOrder` (evaluator.ts). -/
def severityOrder : FindingSeverity → ℕ
  | .BLOCKER => 0
  | .WARNING => 1
  | .INFO => 2

/-- `statusOrder` (evaluator.ts). -/
def statusOrder : FindingStatus → ℕ
  | .FAIL => 0
  | .REVIEW => 1
  | .PASS => 2

/-- Sort key of the comparator in `sortFindings` (evaluator.ts): severity,
then status, then `rule_id`, lexicographically. -/
def findingKey (f : Finding) : ℕ ×ₗ (ℕ ×ₗ String) :=
  toLex (severityOrder f.severity, toLex (statusOrder f.status, f.rule_id))

/-- The (total, transitive) order the comparator in `sortFindings` induces. -/
def findingLE (a b : Finding) : Prop :=
  findingKey a ≤ findingKey b

instance : DecidableRel findingLE := fun a b =>
  inferInstanceAs (Decidable (findingKey a ≤ findingKey b))

instance : IsTotal Finding findingLE :=
  ⟨fun a b => le_total (findingKey a) (findingKey b)⟩

instance : IsTrans Finding findingLE :=
  ⟨fun _ _ _ hab hbc => le_trans hab hbc⟩

/-- `sortFindings` (evaluator.ts): a stable sort by the comparator
(severity, then status, then `rule_id`); JS `Array.prototype.sort` is
stable, so a stable insertion sort by the induced order coincides with it. -/
def sortFindings (findings : List Finding) : List Finding :=
  List.insertionSort findingLE findings

/-- `computeSummary` (evaluator.ts). -/
def computeSummary (findings : List Finding) : EvaluationSummary :=
  { total_rules := findings.length
    passed := (findings.filter fun f => f.status == .PASS).length
    failed := (findings.filter fun f => f.status == .FAIL).length
    review := (findings.filter fun f => f.status == .REVIEW).length
    blockers := (findings.filter fun f => f.severity == .BLOCKER && f.status == .FAIL).length }

/-- `evaluate` (evaluator.ts).  The one impure expression of the source,
`new Date().toISOString()`, is passed in as the `now` argument. -/
def evaluate (ctx : EvaluationContext) (now : String) : EvaluationResult :=
  let findings :=
    evaluateOccupantLoad ctx ++ evaluateExits ctx ++
    evaluateTravelDistance ctx ++ evaluateStairs ctx
  let sortedFindings := sortFindings findings
  { project_id := ctx.project.id
    evaluated_at := now
    dataset_version := ctx.datasets.meta.version
    summary := computeSummary sortedFindings
    findings := sortedFindings }

/-- `hasBlockers` (evaluator.ts). -/
def hasBlockers (ctx : EvaluationContext) (now : String) : Bool :=
  (evaluate ctx now).summary.blockers > 0

/-- `getFailedFindings` (evaluator.ts). -/
def getFailedFindings (ctx : EvaluationContext) (now : String) : List Finding :=
  (evaluate ctx now).findings.filter fun f => f.status == .FAIL

-- ============================================================================
-- validateContext (evaluator.ts), at JS dynamic semantics
-- ============================================================================

/-!
`validateContext` reads fields that the TypeScript types declare as present
but that a raw caller may omit; the claim about it concerns exactly that
case.  The embedding below therefore takes a "JS view" of the context in
which `building`, `spaces` and the dataset (and its occupant-load table) may
be `undefined`, and returns `Except`: `.error` models a thrown `TypeError`,
`.ok` a normal return of the `{valid, errors}` object.
-/

structure ProjectJS where
  id : String
  building : Option BuildingInput
  spaces : Option (List SpaceInput)
  routes : List RouteInput
  exits : List ExitInput
  stairs : List StairInput
  deriving DecidableEq, Repr

structure DatasetTablesJS where
  occupant_load_table_8 : Option (List OccupantLoadEntry)
  deriving DecidableEq, Repr

structure OrdinanceDatasetJS where
  tables : DatasetTablesJS
  deriving DecidableEq, Repr

structure ValidationResult where
  valid : Bool
  errors : List String
  deriving DecidableEq, Repr

/-- `validateContext` (evaluator.ts).  Mirrors the source line by line: the
missing-spaces check only pushes an error message, and the subsequent
`ctx.project.spaces.map(...)` on an absent list throws. -/
def validateContext (project? : Option ProjectJS)
    (datasets? : Option OrdinanceDatasetJS) : Except String ValidationResult :=
  match project? with
  | none => .ok { valid := false, errors := ["Project data is missing"] }
  | some project =>
    let errors : List String := []
    let errors := errors ++ (if project.building.isNone then ["Building data is missing"] else [])
    let errors := errors ++
      (if (match project.spaces with | none => true | some l => l.isEmpty) then
        ["At least one space is required"] else [])
    match project.spaces with
    | none => .error "TypeError: Cannot read properties of undefined (reading 'map')"
    | some spaces =>
      let spaceIds := (spaces.map (·.id)).dedup
      let errors := errors ++
        (if spaceIds.length ≠ spaces.length then ["Duplicate space IDs found"] else [])
      let errors := errors ++ project.routes.flatMap fun route =>
        (if !spaceIds.contains route.from_space_id then
          ["Route " ++ route.id ++ " references unknown space " ++ route.from_space_id]
         else []) ++
        (let exitIds := (project.exits.map (·.id)).dedup
         if !exitIds.contains route.to_exit_id then
          ["Route " ++ route.id ++ " references unknown exit " ++ route.to_exit_id]
         else [])
      let errors := errors ++ project.exits.flatMap fun exit0 =>
        exit0.serves_space_ids.flatMap fun spaceId =>
          if !spaceIds.contains spaceId then
            ["Exit " ++ exit0.id ++ " references unknown space " ++ spaceId]
          else []
      match datasets? with
      | none => .ok { valid := false, errors := errors ++ ["Dataset is missing"] }
      | some datasets =>
        let errors := errors ++
          (if datasets.tables.occupant_load_table_8.isNone then
            ["Occupant load table is missing from dataset"] else [])
        .ok { valid := errors.isEmpty, errors := errors }

-- ============================================================================
-- Shared lemmas
-- ============================================================================

theorem countStatus_sum (l : List Finding) :
    (l.filter fun f => f.status == .PASS).length +
    (l.filter fun f => f.status == .FAIL).length +
    (l.filter fun f => f.status == .REVIEW).length = l.length := by
  induction l with
  | nil => simp
  | cons f t ih =>
      cases h : f.status <;> simp [List.filter_cons, h] <;> omega

-- ============================================================================
-- Claim theorems
-- ============================================================================

/-- C1: two calls of `evaluate` on the identical `(project, dataset)` input
(differing only in the impure timestamp argument) produce identical findings
lists and identical summaries; `evaluated_at` is the only field that may
differ between the two results (`project_id` and `dataset_version` also
agree). -/
theorem evaluate_deterministic (ctx : EvaluationContext) (t1 t2 : String) :
    (evaluate ctx t1).findings = (evaluate ctx t2).findings ∧
    (evaluate ctx t1).summary = (evaluate ctx t2).summary ∧
    (evaluate ctx t1).project_id = (evaluate ctx t2).project_id ∧
    (evaluate ctx t1).dataset_version = (evaluate ctx t2).dataset_version :=
  ⟨rfl, rfl, rfl, rfl⟩

/-- C3: for every evaluation context,
`summary.passed + summary.failed + summary.review = summary.total_rules` and
`summary.total_rules = findings.length`. -/
theorem evaluate_count_invariant (ctx : EvaluationContext) (now : String) :
    (evaluate ctx now).summary.passed + (evaluate ctx now).summary.failed +
      (evaluate ctx now).summary.review = (evaluate ctx now).summary.total_rules ∧
    (evaluate ctx now).summary.total_rules = (evaluate ctx now).findings.length :=
  ⟨countStatus_sum _, rfl⟩

/-- A JS-view project whose `spaces` list is absent (`undefined`). -/
def projectMissingSpaces (pid : String) (b : Option BuildingInput)
    (routes : List RouteInput) (exits : List ExitInput)
    (stairs : List StairInput) : ProjectJS :=
  { id := pid
    building := b
    spaces := none
    routes := routes
    exits := exits
    stairs := stairs }

/-- C9: when the project is present but its `spaces` list is absent,
`validateContext` does not return a reported validation error; the unguarded
iteration over the missing list fails at runtime instead (the embedded
function reaches the `TypeError` branch, never a normal `{valid, errors}`
return). -/
theorem validateContext_missing_spaces (pid : String) (b : Option BuildingInput)
    (routes : List RouteInput) (exits : List ExitInput) (stairs : List StairInput)
    (ds : Option OrdinanceDatasetJS) :
    validateContext (some (projectMissingSpaces pid b routes exits stairs)) ds =
      .error "TypeError: Cannot read properties of undefined (reading 'map')" ∧
    ∀ v, validateContext (some (projectMissingSpaces pid b routes exits stairs)) ds ≠
      .ok v := by
  refine ⟨rfl, ?_⟩
  intro v h
  simp [validateContext, projectMissingSpaces] at h

theorem findingLE_unfold {a b : Finding} (h : findingLE a b) :
    severityOrder a.severity < severityOrder b.severity ∨
      (severityOrder a.severity = severityOrder b.severity ∧
        (statusOrder a.status < statusOrder b.status ∨
          (statusOrder a.status = statusOrder b.status ∧ a.rule_id ≤ b.rule_id))) := by
  simp only [findingLE, findingKey] at h
  have h1 := (Prod.Lex.le_iff _ _).mp h
  rcases h1 with h1 | ⟨he, h2⟩
  · exact Or.inl h1
  · refine Or.inr ⟨he, ?_⟩
    have h3 := (Prod.Lex.le_iff _ _).mp h2
    rcases h3 with h3 | ⟨he2, h4⟩
    · exact Or.inl h3
    · exact Or.inr ⟨he2, h4⟩

/-- C4: the findings list of every evaluation is sorted: for any finding
placed before another, either its severity rank (BLOCKER, WARNING, INFO) is
strictly smaller, or severities tie and its status rank (FAIL, REVIEW, PASS)
is strictly smaller, or both tie and its `rule_id` is lexicographically ≤. -/
theorem evaluate_sort_invariant (ctx : EvaluationContext) (now : String) :
    (evaluate ctx now).findings.Pairwise fun a b =>
      severityOrder a.severity < severityOrder b.severity ∨
      (severityOrder a.severity = severityOrder b.severity ∧
        (statusOrder a.status < statusOrder b.status ∨
          (statusOrder a.status = statusOrder b.status ∧ a.rule_id ≤ b.rule_id))) := by
  have h : List.Sorted findingLE ((evaluate ctx now).findings) :=
    List.sorted_insertionSort findingLE _
  exact h.imp fun hab => findingLE_unfold hab

/-- C5: `calculateOccupantLoad` returns a positive `occupants_override`
verbatim with source `override` and a null area-per-person value; otherwise
it returns `ceil(area_m2 / factor)` with source `calculated`, where the
factor is the looked-up occupant-load entry's (queried with
`isGroundFloor = (floor == 0)`) when one is found, and 5.0 otherwise. -/
theorem calculateOccupantLoad_spec (space : SpaceInput) (ctx : EvaluationContext) :
    (∀ o, space.occupants_override = some o → 0 < o →
      calculateOccupantLoad space ctx =
        { toSpaceInput := space
          computed_occupants := o
          occupant_source := .override
          area_per_person_m2 := none }) ∧
    ((∀ o, space.occupants_override = some o → o ≤ 0) →
      calculateOccupantLoad space ctx =
        match lookupOccupantLoadFactor ctx.datasets.tables.occupant_load_table_8
            ctx.project.building.functional_class (some space.purpose)
            (some (space.floor == 0)) with
        | some entry =>
            { toSpaceInput := space
              computed_occupants := ((⌈space.area_m2 / entry.area_per_person_m2⌉ : ℤ) : ℚ)
              occupant_source := .calculated
              area_per_person_m2 := some entry.area_per_person_m2 }
        | none =>
            { toSpaceInput := space
              computed_occupants := ((⌈space.area_m2 / 5⌉ : ℤ) : ℚ)
              occupant_source := .calculated
              area_per_person_m2 := some 5 }) := by
  constructor
  · intro o ho hpos
    simp [calculateOccupantLoad, ho, hpos]
  · intro hno
    cases hl : lookupOccupantLoadFactor ctx.datasets.tables.occupant_load_table_8
        ctx.project.building.functional_class (some space.purpose)
        (some (space.floor == 0)) with
    | none =>
        cases ho : space.occupants_override with
        | none => simp [calculateOccupantLoad, ho, hl]
        | some o =>
            have hle := hno o ho
            simp [calculateOccupantLoad, ho, hl, not_lt.mpr hle]
    | some e =>
        cases ho : space.occupants_override with
        | none => simp [calculateOccupantLoad, ho, hl]
        | some o =>
            have hle := hno o ho
            simp [calculateOccupantLoad, ho, hl, not_lt.mpr hle]

def entryC5 : OccupantLoadEntry :=
  { id := 1
    functional_class := "Ф4.1"
    space_type := "зали"
    space_type_en := "halls"
    area_per_person_m2 := 2
    notes := none
    article_ref := "чл. 36" }

def buildingC5 : BuildingInput :=
  { name := "b"
    height_m := none
    height_category := "Н"
    functional_class := "Ф4.1"
    fire_resistance_rating := none
    has_sprinklers := false
    has_smoke_control := false
    has_fire_alarm := false
    is_single_storey := true }

def spaceC5 (area : ℚ) (ovr : Option ℚ) : SpaceInput :=
  { id := "s1"
    name := "room"
    purpose := ""
    floor := 0
    area_m2 := area
    is_underground := false
    fire_hazard_category := none
    occupants_override := ovr }

def metaC5 : DatasetMeta :=
  { ordinance := "Iz-1971"
    version := "v1"
    effective_from := ""
    source := ""
    last_updated := ""
    notes := "" }

def ctxC5 : EvaluationContext :=
  { project :=
      { id := "p"
        name := "p"
        created_at := ""
        updated_at := ""
        building := buildingC5
        spaces := [spaceC5 100 none]
        routes := []
        exits := []
        stairs := [] }
    datasets :=
      { meta := metaC5
        tables :=
          { occupant_load_table_8 := [entryC5]
            min_exits_by_occupants := []
            max_travel_distance := []
            dead_end_limits := []
            min_widths := [] } } }

/-- C5 witness: a positive override of 120 is returned verbatim; with a
looked-up factor of 2.0, area 100 gives 50 occupants and area 101 gives 51
(rounds up). -/
theorem calculateOccupantLoad_spec_witness :
    (calculateOccupantLoad (spaceC5 30 (some 120)) ctxC5).computed_occupants = 120 ∧
    (calculateOccupantLoad (spaceC5 100 none) ctxC5).computed_occupants = 50 ∧
    (calculateOccupantLoad (spaceC5 101 none) ctxC5).computed_occupants = 51 := by
  have h1 := (calculateOccupantLoad_spec (spaceC5 30 (some 120)) ctxC5).1 120 rfl (by norm_num)
  have h2 := (calculateOccupantLoad_spec (spaceC5 100 none) ctxC5).2 (fun o ho => by cases ho)
  have h3 := (calculateOccupantLoad_spec (spaceC5 101 none) ctxC5).2 (fun o ho => by cases ho)
  have hl100 : lookupOccupantLoadFactor ctxC5.datasets.tables.occupant_load_table_8
      ctxC5.project.building.functional_class (some (spaceC5 100 none).purpose)
      (some ((spaceC5 100 none).floor == 0)) = some entryC5 := by decide
  have hl101 : lookupOccupantLoadFactor ctxC5.datasets.tables.occupant_load_table_8
      ctxC5.project.building.functional_class (some (spaceC5 101 none).purpose)
      (some ((spaceC5 101 none).floor == 0)) = some entryC5 := by decide
  have hc100 : (⌈(100:ℚ)/2⌉ : ℤ) = 50 := by
    rw [Int.ceil_eq_iff]
    norm_num
  have hc101 : (⌈(101:ℚ)/2⌉ : ℤ) = 51 := by
    rw [Int.ceil_eq_iff]
    norm_num
  refine ⟨?_, ?_, ?_⟩
  · rw [h1]
  · rw [h2, hl100]
    show ((⌈(spaceC5 100 none).area_m2 / entryC5.area_per_person_m2⌉ : ℤ) : ℚ) = 50
    simp only [spaceC5, entryC5]
    rw [hc100]
    norm_num
  · rw [h3, hl101]
    show ((⌈(spaceC5 101 none).area_m2 / entryC5.area_per_person_m2⌉ : ℤ) : ℚ) = 51
    simp only [spaceC5, entryC5]
    rw [hc101]
    norm_num

def spiralRow16to50 : MinWidthEntry :=
  { element_type := "spiral_stair"
    context := "Вита стълба за 16-50 човека"
    min_width_m := some (12/10)
    max_width_m := none
    width_per_100_people_m := none
    min_step_width_m := none
    max_height_m := none
    min_inner_diameter_m := none
    notes := none
    article_ref := "чл. 52, ал. 1" }

def spiralRowOver50 : MinWidthEntry :=
  { element_type := "spiral_stair"
    context := "Вита стълба за Над 50 човека"
    min_width_m := some (15/10)
    max_width_m := none
    width_per_100_people_m := none
    min_step_width_m := none
    max_height_m := none
    min_inner_diameter_m := none
    notes := none
    article_ref := "чл. 52, ал. 2" }

/-- C6: in a minimum-width table whose spiral-stair row carrying the
"16-50" range marker (1.2 m) is listed before the row carrying the
"Над 50" (over 50) marker (1.5 m), `lookupMinWidth` for `spiral_stair`
with 51 (> 50) occupants returns the 16-50 row (1.2 m) instead of the
intended over-50 row, because the search for the substring "50 човека"
also matches "16-50 човека". -/
theorem lookupMinWidth_spiral_overlap :
    jsIncludes spiralRow16to50.context "16-50" = true ∧
    spiralRow16to50.min_width_m = some (12/10) ∧
    jsIncludes spiralRowOver50.context "Над 50" = true ∧
    spiralRowOver50.min_width_m = some (15/10) ∧
    (50:ℚ) < 51 ∧
    lookupMinWidth [spiralRow16to50, spiralRowOver50] "spiral_stair" 51 false =
      some spiralRow16to50 :=
  ⟨by decide, rfl, by decide, rfl, by decide, rfl⟩

theorem stairWidth_rule_ids (stair : StairInput) (ctx : EvaluationContext) :
    ∀ f ∈ evaluateStairWidth stair ctx,
      f.rule_id = "EGR-STAIR-001" ∨ f.rule_id = "EGR-STAIR-002" := by
  intro f hf
  simp only [evaluateStairWidth] at hf
  rcases List.mem_cons.mp hf with h | h
  · subst h; left; rfl
  · split at h
    · rcases List.mem_singleton.mp h with rfl
      right; rfl
    · cases h

theorem stairSteps_rule_ids (stair : StairInput) (ctx : EvaluationContext) :
    ∀ f ∈ evaluateStairSteps stair ctx,
      f.rule_id = "EGR-STAIR-003" ∨ f.rule_id = "EGR-STAIR-004" := by
  intro f hf
  simp only [evaluateStairSteps] at hf
  rcases List.mem_append.mp hf with h | h
  · split at h
    · cases h
    · rcases List.mem_singleton.mp h with rfl
      left; rfl
  · split at h
    · cases h
    · rcases List.mem_singleton.mp h with rfl
      right; rfl

/-- C7: for an enclosed stair serving more than 3 floors, the stairs module
emits an `EGR-STAIR-005` FAIL/BLOCKER finding exactly when both
`is_naturally_lit` and `has_smoke_vent` are false; if either flag is true,
no `EGR-STAIR-005` finding is emitted for that stair at all. -/
theorem stairLighting_spec (stair : StairInput) (ctx : EvaluationContext)
    (htype : stair.type = .enclosed) (hfloors : 3 < stair.serves_floors.length) :
    ((∃ f ∈ stairFindings stair ctx,
        f.rule_id = "EGR-STAIR-005" ∧ f.status = .FAIL ∧ f.severity = .BLOCKER) ↔
      (stair.is_naturally_lit = false ∧ stair.has_smoke_vent = false)) ∧
    ((stair.is_naturally_lit = true ∨ stair.has_smoke_vent = true) →
      ∀ f ∈ stairFindings stair ctx, f.rule_id ≠ "EGR-STAIR-005") := by
  have hwidth := stairWidth_rule_ids stair ctx
  have hsteps := stairSteps_rule_ids stair ctx
  have hcond : (stair.type == StairType.enclosed && stair.serves_floors.length > 3) = true := by
    simp [htype, hfloors]
  constructor
  · constructor
    · rintro ⟨f, hf, hid, _, _⟩
      simp only [stairFindings, List.mem_append] at hf
      rcases hf with (hf | hf) | hf
      · rcases hwidth f hf with h | h <;> simp [h] at hid
      · rcases hsteps f hf with h | h <;> simp [h] at hid
      · simp only [evaluateStairLighting, hcond, if_true] at hf
        split at hf
        · rename_i hflags
          constructor
          · cases hl : stair.is_naturally_lit
            · rfl
            · simp [hl] at hflags
          · cases hv : stair.has_smoke_vent
            · rfl
            · simp [hv] at hflags
        · cases hf
    · rintro ⟨hl, hv⟩
      refine ⟨{ rule_id := "EGR-STAIR-005"
                status := .FAIL
                severity := .BLOCKER
                scope := .stair
                subject_id := stair.id
                subject_name := some stair.name
                measured := none
                required := none
                explanation_bg :=
                  "Вътрешното евакуационно стълбище обслужва повече от три етажа (" ++
                  toString stair.serves_floors.length ++
                  ") и не е осигурено с естествено осветление или димоотвеждане."
                legal_reference := "Наредба № Iз-1971, чл. 50, ал. 2"
                details :=
                  [("serves_floors", toString stair.serves_floors),
                   ("is_naturally_lit", toString stair.is_naturally_lit),
                   ("has_smoke_vent", toString stair.has_smoke_vent)] }, ?_, rfl, rfl, rfl⟩
      simp only [stairFindings, List.mem_append]
      right
      simp [evaluateStairLighting, hcond, hl, hv]
  · intro hflag f hf
    simp only [stairFindings, List.mem_append] at hf
    rcases hf with (hf | hf) | hf
    · rcases hwidth f hf with h | h <;> simp [h]
    · rcases hsteps f hf with h | h <;> simp [h]
    · simp only [evaluateStairLighting, hcond, if_true] at hf
      split at hf
      · rename_i hflags
        rcases hflag with h | h <;> simp [h] at hflags
      · cases hf

def emptyTables : DatasetTables :=
  { occupant_load_table_8 := []
    min_exits_by_occupants := []
    max_travel_distance := []
    dead_end_limits := []
    min_widths := [] }

def stairC7 (lit vent : Bool) : StairInput :=
  { id := "st1"
    name := "stair"
    type := .enclosed
    width_m := 1
    serves_floors := [0, 1, 2, 3]
    step_width_m := none
    step_height_m := none
    is_naturally_lit := lit
    has_smoke_vent := vent }

def ctxC7 : EvaluationContext :=
  { project :=
      { id := "p7"
        name := "p7"
        created_at := ""
        updated_at := ""
        building := buildingC5
        spaces := []
        routes := []
        exits := []
        stairs := [stairC7 false false] }
    datasets :=
      { meta := metaC5
        tables := emptyTables } }

/-- C7 witness: an enclosed stair over floors `[0,1,2,3]` with both flags
false yields the `EGR-STAIR-005` FAIL/BLOCKER finding; setting either flag
to true removes it entirely. -/
theorem stairLighting_spec_witness :
    (∃ f ∈ stairFindings (stairC7 false false) ctxC7,
        f.rule_id = "EGR-STAIR-005" ∧ f.status = .FAIL ∧ f.severity = .BLOCKER) ∧
    (∀ f ∈ stairFindings (stairC7 true false) ctxC7, f.rule_id ≠ "EGR-STAIR-005") ∧
    (∀ f ∈ stairFindings (stairC7 false true) ctxC7, f.rule_id ≠ "EGR-STAIR-005") :=
  ⟨(stairLighting_spec (stairC7 false false) ctxC7 rfl (by decide)).1.mpr ⟨rfl, rfl⟩,
   (stairLighting_spec (stairC7 true false) ctxC7 rfl (by decide)).2 (Or.inl rfl),
   (stairLighting_spec (stairC7 false true) ctxC7 rfl (by decide)).2 (Or.inr rfl)⟩

/-- C10: for a route whose `from_space_id` resolves to no space,
`evaluateRouteDistance` still returns normally with exactly one
`EGR-TRAVEL-001` finding; the maximum-distance lookup is performed with no
fire-hazard category, and on a lookup miss the finding is REVIEW/WARNING
with `required = null`. -/
theorem routeDistance_dangling (route : RouteInput) (ctx : EvaluationContext)
    (h : ∀ s ∈ ctx.project.spaces, s.id ≠ route.from_space_id) :
    (evaluateRouteDistance route ctx).length = 1 ∧
    ∀ f ∈ evaluateRouteDistance route ctx,
      f.rule_id = "EGR-TRAVEL-001" ∧
      (lookupMaxTravelDistance ctx.datasets.tables.max_travel_distance
          route.evacuation_type .room none
          (some { isSingleStorey := some ctx.project.building.is_single_storey
                  fireResistanceRating := none
                  hasSprinklers := some ctx.project.building.has_sprinklers
                  hasFireAlarm := some ctx.project.building.has_fire_alarm }) = none →
        f.status = .REVIEW ∧ f.severity = .WARNING ∧ f.required = none) := by
  have hfind : ctx.project.spaces.find? (fun s => s.id == route.from_space_id) = none := by
    rw [List.find?_eq_none]
    intro s hs
    simp [h s hs]
  cases hl : lookupMaxTravelDistance ctx.datasets.tables.max_travel_distance
      route.evacuation_type .room none
      (some { isSingleStorey := some ctx.project.building.is_single_storey
              fireResistanceRating := none
              hasSprinklers := some ctx.project.building.has_sprinklers
              hasFireAlarm := some ctx.project.building.has_fire_alarm }) with
  | none =>
      constructor
      · simp [evaluateRouteDistance, hfind, hl]
      · intro f hf
        simp only [evaluateRouteDistance, hfind, Option.none_bind, hl,
          List.mem_singleton] at hf
        subst hf
        exact ⟨rfl, fun _ => ⟨rfl, rfl, rfl⟩⟩
  | some e =>
      constructor
      · simp [evaluateRouteDistance, hfind, hl]
      · intro f hf
        simp only [evaluateRouteDistance, hfind, Option.none_bind, hl,
          List.mem_singleton] at hf
        subst hf
        exact ⟨rfl, fun hcontra => by cases hcontra⟩

def routeC10 : RouteInput :=
  { id := "r1"
    name := none
    from_space_id := "ghost"
    to_exit_id := "e1"
    length_m := 10
    has_dead_end := false
    dead_end_length_m := none
    evacuation_type := .single_direction }

/-- C10 witness: a route from the nonexistent space "ghost" in a context
with no spaces and an empty distance table yields exactly one
REVIEW/WARNING `EGR-TRAVEL-001` finding with `required = null`. -/
theorem routeDistance_dangling_witness :
    (evaluateRouteDistance routeC10 ctxC7).length = 1 ∧
    ∀ f ∈ evaluateRouteDistance routeC10 ctxC7,
      f.rule_id = "EGR-TRAVEL-001" ∧ f.status = .REVIEW ∧
      f.severity = .WARNING ∧ f.required = none := by
  have hthm := routeDistance_dangling routeC10 ctxC7 (by intro s hs; cases hs)
  refine ⟨hthm.1, fun f hf => ?_⟩
  have h2 := hthm.2 f hf
  have h3 := h2.2 rfl
  exact ⟨h2.1, h3.1, h3.2.1, h3.2.2⟩

/-- C2 (amended): for an exit whose total served occupants exceed 100 and
whose `has_panic_hardware` flag is false, the exits module emits an
`EGR-EXIT-003` FAIL/BLOCKER finding regardless of width compliance,
PROVIDED the minimum-width lookup for the exit found a row; on a lookup
miss the function returns after the `EGR-WIDTH-001` REVIEW finding and no
`EGR-EXIT-003` is emitted.  With `has_panic_hardware` true, or with at most
100 occupants, no `EGR-EXIT-003` finding is ever emitted for that exit. -/
theorem exitPanicHardware_spec (exit0 : ExitInput) (ctx : EvaluationContext) :
    (100 < exitTotalOccupants exit0 ctx → exit0.has_panic_hardware = false →
      (∀ wr, lookupMinWidth ctx.datasets.tables.min_widths "exit_door"
          (exitTotalOccupants exit0 ctx)
          ((servedSpacesOfExit exit0 ctx).any (·.is_underground)) = some wr →
        ∃ f ∈ evaluateExitWidth exit0 ctx,
          f.rule_id = "EGR-EXIT-003" ∧ f.status = .FAIL ∧ f.severity = .BLOCKER) ∧
      (lookupMinWidth ctx.datasets.tables.min_widths "exit_door"
          (exitTotalOccupants exit0 ctx)
          ((servedSpacesOfExit exit0 ctx).any (·.is_underground)) = none →
        ∀ f ∈ evaluateExitWidth exit0 ctx, f.rule_id ≠ "EGR-EXIT-003")) ∧
    ((exit0.has_panic_hardware = true ∨ exitTotalOccupants exit0 ctx ≤ 100) →
      ∀ f ∈ evaluateExitWidth exit0 ctx, f.rule_id ≠ "EGR-EXIT-003") := by
  constructor
  · intro h100 hpanic
    constructor
    · intro wr hl
      have hcond : (decide (100 < exitTotalOccupants exit0 ctx) &&
          !exit0.has_panic_hardware) = true := by
        rw [hpanic]
        simp [h100]
      simp only [evaluateExitWidth, hl]
      refine ⟨{ rule_id := "EGR-EXIT-003"
                status := .FAIL
                severity := .BLOCKER
                scope := .exit
                subject_id := exit0.id
                subject_name := some exit0.name
                measured := none
                required := none
                explanation_bg :=
                  "Изходът обслужва над 100 човека (" ++
                  toString (exitTotalOccupants exit0 ctx) ++
                  ") и изисква брава тип \"антипаник\" съгласно БДС EN 1125."
                legal_reference := "Наредба № Iз-1971, чл. 43, ал. 2"
                details :=
                  [("totalOccupants", toString (exitTotalOccupants exit0 ctx)),
                   ("has_panic_hardware", toString exit0.has_panic_hardware)] },
              List.mem_cons_of_mem _ (List.mem_append_right _ ?_), rfl, rfl, rfl⟩
      rw [if_pos hcond]
      exact List.mem_singleton_self _
    · intro hl f hf
      simp only [evaluateExitWidth, hl, List.mem_singleton] at hf
      subst hf
      simp
  · intro hside f hf
    have hcond : ¬((decide (100 < exitTotalOccupants exit0 ctx) &&
        !exit0.has_panic_hardware) = true) := by
      rcases hside with h | h
      · simp [h]
      · simp [not_lt.mpr h]
    cases hl : lookupMinWidth ctx.datasets.tables.min_widths "exit_door"
        (exitTotalOccupants exit0 ctx)
        ((servedSpacesOfExit exit0 ctx).any (·.is_underground)) with
    | none =>
        simp only [evaluateExitWidth, hl, List.mem_singleton] at hf
        subst hf
        simp
    | some wr =>
        simp only [evaluateExitWidth, hl, List.mem_cons, List.mem_append] at hf
        rcases hf with rfl | hf | hf
        · simp
        · split at hf
          · split at hf
            · rcases List.mem_singleton.mp hf with rfl
              simp
            · cases hf
          · cases hf
        · rw [if_neg hcond] at hf
          cases hf

def spaceC2 : SpaceInput :=
  { id := "s1"
    name := "hall"
    purpose := ""
    floor := 0
    area_m2 := 10
    is_underground := false
    fire_hazard_category := none
    occupants_override := some 120 }

def exitC2 : ExitInput :=
  { id := "e1"
    name := "door"
    type := .door
    width_m := 1
    serves_space_ids := ["s1"]
    serves_floors := [0]
    has_panic_hardware := false }

def ctxC2 : EvaluationContext :=
  { project :=
      { id := "p2"
        name := "p2"
        created_at := ""
        updated_at := ""
        building := buildingC5
        spaces := [spaceC2]
        routes := []
        exits := [exitC2]
        stairs := [] }
    datasets :=
      { meta := metaC5
        tables := emptyTables } }

/-- Concrete total occupants for the C2 counterexample context. -/
theorem exitTotalOccupants_ctxC2 : exitTotalOccupants exitC2 ctxC2 = 120 := by
  simp [exitTotalOccupants, servedSpacesOfExit, calculateOccupantLoad, ctxC2, exitC2, spaceC2]

/-- C2 counterexample: an exit serving 120 occupants without panic hardware
in a context whose minimum-width table is empty (so the width lookup finds
no row) produces NO `EGR-EXIT-003` finding, contradicting the claim that
the finding is emitted independently of whether the lookup found a row. -/
theorem exitPanicHardware_claim_cex :
    100 < exitTotalOccupants exitC2 ctxC2 ∧
    exitC2.has_panic_hardware = false ∧
    ∀ f ∈ evaluateExits ctxC2, f.rule_id ≠ "EGR-EXIT-003" := by
  refine ⟨?_, rfl, by decide⟩
  rw [exitTotalOccupants_ctxC2]
  norm_num

def rowC2w : MinWidthEntry :=
  { element_type := "exit_door"
    context := "Помещения за 51-200 човека"
    min_width_m := some (9/10)
    max_width_m := none
    width_per_100_people_m := none
    min_step_width_m := none
    max_height_m := none
    min_inner_diameter_m := none
    notes := none
    article_ref := "чл. 41" }

def ctxC2w : EvaluationContext :=
  { project :=
      { id := "p2w"
        name := "p2w"
        created_at := ""
        updated_at := ""
        building := buildingC5
        spaces := [spaceC2]
        routes := []
        exits := [exitC2]
        stairs := [] }
    datasets :=
      { meta := metaC5
        tables :=
          { occupant_load_table_8 := []
            min_exits_by_occupants := []
            max_travel_distance := []
            dead_end_limits := []
            min_widths := [rowC2w] } } }

/-- C2 witness: with a width table that does contain a matching row, the
same 120-occupant exit without panic hardware yields the `EGR-EXIT-003`
FAIL/BLOCKER finding. -/
theorem exitPanicHardware_spec_witness :
    ∃ f ∈ evaluateExitWidth exitC2 ctxC2w,
      f.rule_id = "EGR-EXIT-003" ∧ f.status = .FAIL ∧ f.severity = .BLOCKER := by
  have htot : exitTotalOccupants exitC2 ctxC2w = 120 := by
    simp [exitTotalOccupants, servedSpacesOfExit, calculateOccupantLoad, ctxC2w, exitC2, spaceC2]
  have h100 : 100 < exitTotalOccupants exitC2 ctxC2w := by
    rw [htot]
    norm_num
  have hlook : lookupMinWidth ctxC2w.datasets.tables.min_widths "exit_door"
      (exitTotalOccupants exitC2 ctxC2w)
      ((servedSpacesOfExit exitC2 ctxC2w).any (·.is_underground)) = some rowC2w := by
    rw [htot]
    rfl
  exact ((exitPanicHardware_spec exitC2 ctxC2w).1 h100 rfl).1 rowC2w hlook

theorem truthyCategory_iff (entryCat fireHazardCategory : Option String) :
    (!(jsTruthyStr entryCat && jsTruthyStr fireHazardCategory &&
      entryCat != fireHazardCategory)) = true ↔
      (∀ ec fc0, entryCat = some ec → fireHazardCategory = some fc0 →
        ec ≠ "" → fc0 ≠ "" → ec = fc0) := by
  cases hc : entryCat <;> cases hf : fireHazardCategory <;>
    simp [jsTruthyStr, String.isEmpty_iff]
  rename_i ec fc0
  tauto

/-- The row-filter of `lookupMinExits`, spelled out as the spec words it:
class group (industrial rows additionally filtered by fire-hazard category
when both the row's and the query's category are present, i.e. non-empty),
underground applicability, inclusive occupant range with an open-ended
maximum, and area ceiling. -/
def MinExitsRowMatches (functionalClass : String) (occupants area_m2 : ℚ)
    (isUnderground : Bool) (fireHazardCategory : Option String)
    (entry : MinExitsEntry) : Prop :=
  (if isIndustrialClass functionalClass then
      entry.functional_class_group = "Ф5" ∧
      (∀ ec fc0, entry.category = some ec → fireHazardCategory = some fc0 →
        ec ≠ "" → fc0 ≠ "" → ec = fc0)
    else entry.functional_class_group = "Ф1-Ф4") ∧
  (entry.underground_only = true → isUnderground = true) ∧
  entry.min_occupants ≤ occupants ∧
  (∀ mx, entry.max_occupants = some mx → occupants ≤ mx) ∧
  (∀ ma, entry.max_area_m2 = some ma → area_m2 ≤ ma)

theorem minExitsMatches_iff (functionalClass : String) (occupants area_m2 : ℚ)
    (isUnderground : Bool) (fireHazardCategory : Option String)
    (entry : MinExitsEntry) :
    minExitsMatches functionalClass occupants area_m2 isUnderground
      fireHazardCategory entry = true ↔
    MinExitsRowMatches functionalClass occupants area_m2 isUnderground
      fireHazardCategory entry := by
  have h1 : (if isIndustrialClass functionalClass then
        entry.functional_class_group == "Ф5" &&
        !(jsTruthyStr entry.category && jsTruthyStr fireHazardCategory &&
          entry.category != fireHazardCategory)
      else entry.functional_class_group == "Ф1-Ф4") = true ↔
      (if isIndustrialClass functionalClass then
        entry.functional_class_group = "Ф5" ∧
        (∀ ec fc0, entry.category = some ec → fireHazardCategory = some fc0 →
          ec ≠ "" → fc0 ≠ "" → ec = fc0)
      else entry.functional_class_group = "Ф1-Ф4") := by
    cases hind : isIndustrialClass functionalClass
    · simp
    · simp only [if_true, Bool.and_eq_true, beq_iff_eq]
      rw [truthyCategory_iff]
  have h2 : (!(entry.underground_only && !isUnderground)) = true ↔
      (entry.underground_only = true → isUnderground = true) := by
    cases entry.underground_only <;> cases isUnderground <;> simp
  have h4 : (match entry.max_occupants with
      | some mx => decide (occupants ≤ mx)
      | none => true) = true ↔
      (∀ mx, entry.max_occupants = some mx → occupants ≤ mx) := by
    cases entry.max_occupants <;> simp
  have h5 : (match entry.max_area_m2 with
      | some ma => decide (area_m2 ≤ ma)
      | none => true) = true ↔
      (∀ ma, entry.max_area_m2 = some ma → area_m2 ≤ ma) := by
    cases entry.max_area_m2 <;> simp
  unfold minExitsMatches MinExitsRowMatches
  simp only [Bool.and_eq_true]
  rw [h1, h2, h4, h5, decide_eq_true_eq]
  simp only [and_assoc]

/-- The `reduce` in `lookupMinExits` keeps the current row unless a strictly
smaller one appears, so it selects the first row attaining the minimum:
the result is minimal over the list and every element strictly before it in
the list has a strictly larger value. -/
theorem foldl_argmin {α : Type} (f : α → ℚ) :
    ∀ (t : List α) (h : α),
      (∀ x ∈ h :: t, f (t.foldl (fun m e => if f e < f m then e else m) h) ≤ f x) ∧
      ∃ l₁ l₂, h :: t = l₁ ++ (t.foldl (fun m e => if f e < f m then e else m) h) :: l₂ ∧
        ∀ x ∈ l₁, f (t.foldl (fun m e => if f e < f m then e else m) h) < f x := by
  intro t
  induction t with
  | nil =>
      intro h
      refine ⟨?_, [], [], rfl, by simp⟩
      intro x hx
      rw [List.mem_singleton.mp hx]
      exact le_refl _
  | cons e t ih =>
      intro h
      have ihe := ih (if f e < f h then e else h)
      simp only [List.foldl_cons]
      obtain ⟨ihmin, l₁, l₂, heq, hstrict⟩ := ihe
      by_cases hlt : f e < f h
      · rw [if_pos hlt] at ihmin heq hstrict ⊢
        have hre : f (List.foldl (fun m e => if f e < f m then e else m) e t) ≤ f e :=
          ihmin e (List.mem_cons_self e t)
        constructor
        · intro x hx
          rcases List.mem_cons.mp hx with rfl | hx
          · exact le_of_lt (lt_of_le_of_lt hre hlt)
          · exact ihmin x hx
        · refine ⟨h :: l₁, l₂, ?_, ?_⟩
          · rw [List.cons_append, ← heq]
          · intro x hx
            rcases List.mem_cons.mp hx with rfl | hx
            · exact lt_of_le_of_lt hre hlt
            · exact hstrict x hx
      · rw [if_neg hlt] at ihmin heq hstrict ⊢
        have hge : f h ≤ f e := le_of_not_lt hlt
        have hrh : f (List.foldl (fun m e => if f e < f m then e else m) h t) ≤ f h :=
          ihmin h (List.mem_cons_self h t)
        constructor
        · intro x hx
          rcases List.mem_cons.mp hx with rfl | hx
          · exact hrh
          · rcases List.mem_cons.mp hx with rfl | hx
            · exact le_trans hrh hge
            · exact ihmin x (List.mem_cons_of_mem h hx)
        · cases l₁ with
          | nil =>
              simp only [List.nil_append] at heq
              refine ⟨[], e :: t, ?_, by simp⟩
              have heq1 : h = List.foldl (fun m e => if f e < f m then e else m) h t :=
                ((List.cons.injEq _ _ _ _).mp heq).1
              rw [List.nil_append, ← heq1]
          | cons h₀ l₁' =>
              have heq' := (List.cons.injEq _ _ _ _).mp (by simpa using heq)
              refine ⟨h :: e :: l₁', l₂, ?_, ?_⟩
              · simp only [List.cons_append]
                rw [← heq'.2]
              · intro x hx
                have hrh0 : f (List.foldl (fun m e => if f e < f m then e else m) h t) < f h := by
                  have := hstrict h₀ (List.mem_cons_self h₀ l₁')
                  rwa [← heq'.1] at this
                rcases List.mem_cons.mp hx with rfl | hx
                · exact hrh0
                · rcases List.mem_cons.mp hx with rfl | hx
                  · exact lt_of_lt_of_le hrh0 hge
                  · exact hstrict x (List.mem_cons_of_mem h₀ hx)

/-- C8: `lookupMinExits` returns `none` exactly when no row matches the
spelled-out conditions; when it returns a row, that row is a matching row of
the table with the smallest `min_exits` among all matching rows, and it is
the first such row in stable input order (every matching row listed before
it has a strictly larger `min_exits`). -/
theorem lookupMinExits_spec (table : List MinExitsEntry) (functionalClass : String)
    (occupants area_m2 : ℚ) (isUnderground : Bool)
    (fireHazardCategory : Option String) :
    (lookupMinExits table functionalClass occupants area_m2 isUnderground
        fireHazardCategory = none ↔
      ∀ e ∈ table, ¬ MinExitsRowMatches functionalClass occupants area_m2
        isUnderground fireHazardCategory e) ∧
    ∀ r, lookupMinExits table functionalClass occupants area_m2 isUnderground
        fireHazardCategory = some r →
      r ∈ table ∧
      MinExitsRowMatches functionalClass occupants area_m2 isUnderground
        fireHazardCategory r ∧
      (∀ e ∈ table, MinExitsRowMatches functionalClass occupants area_m2
          isUnderground fireHazardCategory e → r.min_exits ≤ e.min_exits) ∧
      ∃ l₁ l₂,
        table.filter (minExitsMatches functionalClass occupants area_m2
          isUnderground fireHazardCategory) = l₁ ++ r :: l₂ ∧
        ∀ e ∈ l₁, r.min_exits < e.min_exits := by
  constructor
  · cases hfl : table.filter (minExitsMatches functionalClass occupants area_m2
        isUnderground fireHazardCategory) with
    | nil =>
        simp only [lookupMinExits, hfl]
        constructor
        · intro _ e he hm
          have : minExitsMatches functionalClass occupants area_m2 isUnderground
              fireHazardCategory e = true := (minExitsMatches_iff _ _ _ _ _ _).mpr hm
          have hmem : e ∈ table.filter (minExitsMatches functionalClass occupants
              area_m2 isUnderground fireHazardCategory) := List.mem_filter.mpr ⟨he, this⟩
          rw [hfl] at hmem
          cases hmem
        · intro _; trivial
    | cons hh tt =>
        simp only [lookupMinExits, hfl]
        constructor
        · intro hcontra; cases hcontra
        · intro hall
          have hmem : hh ∈ table.filter (minExitsMatches functionalClass occupants
              area_m2 isUnderground fireHazardCategory) := by
            rw [hfl]; exact List.mem_cons_self _ _
          have ⟨hmemt, hmatch⟩ := List.mem_filter.mp hmem
          exact absurd ((minExitsMatches_iff _ _ _ _ _ _).mp hmatch) (hall hh hmemt)
  · intro r hr
    cases hfl : table.filter (minExitsMatches functionalClass occupants area_m2
        isUnderground fireHazardCategory) with
    | nil =>
        rw [lookupMinExits, hfl] at hr
        cases hr
    | cons hh tt =>
        rw [lookupMinExits, hfl] at hr
        have hreq : tt.foldl (fun m e => if e.min_exits < m.min_exits then e else m) hh = r :=
          Option.some.inj hr
        obtain ⟨hmin, l₁, l₂, heq, hstrict⟩ := foldl_argmin (·.min_exits) tt hh
        rw [hreq] at hmin heq hstrict
    -- r is in the filtered list
        have hrf : r ∈ table.filter (minExitsMatches functionalClass occupants area_m2
            isUnderground fireHazardCategory) := by
          rw [hfl, heq]
          exact List.mem_append_right _ (List.mem_cons_self _ _)
        have ⟨hrt, hrm⟩ := List.mem_filter.mp hrf
        refine ⟨hrt, (minExitsMatches_iff _ _ _ _ _ _).mp hrm, ?_, ?_⟩
        · intro e he hm
          have hef : e ∈ table.filter (minExitsMatches functionalClass occupants area_m2
              isUnderground fireHazardCategory) :=
            List.mem_filter.mpr ⟨he, (minExitsMatches_iff _ _ _ _ _ _).mpr hm⟩
          rw [hfl] at hef
          exact hmin e hef
        · exact ⟨l₁, l₂, heq, hstrict⟩

def rowC8a : MinExitsEntry :=
  { functional_class_group := "Ф1-Ф4"
    category := none
    min_occupants := 51
    max_occupants := none
    max_area_m2 := none
    underground_only := false
    min_exits := 2
    min_width_m := none
    notes := none
    article_ref := "чл. 42, т. 1" }

def rowC8b : MinExitsEntry :=
  { functional_class_group := "Ф1-Ф4"
    category := none
    min_occupants := 101
    max_occupants := some 200
    max_area_m2 := some 1000
    underground_only := false
    min_exits := 1
    min_width_m := none
    notes := none
    article_ref := "чл. 42, т. 2" }

def rowC8c : MinExitsEntry :=
  { functional_class_group := "Ф5"
    category := some "Ф5А"
    min_occupants := 0
    max_occupants := none
    max_area_m2 := none
    underground_only := false
    min_exits := 3
    min_width_m := none
    notes := none
    article_ref := "чл. 42, т. 3" }

def tableC8 : List MinExitsEntry := [rowC8a, rowC8b, rowC8c]

/-- C8 witness: on a three-row table (non-industrial query), the lookup
skips the industrial row, and of the two matching rows returns the one with
the smaller required-exit count. -/
theorem lookupMinExits_spec_witness :
    lookupMinExits tableC8 "Ф1.1" 120 50 false none = some rowC8b ∧
    rowC8b ∈ tableC8 ∧
    MinExitsRowMatches "Ф1.1" 120 50 false none rowC8b ∧
    rowC8b.min_exits ≤ rowC8a.min_exits := by
  have h := (lookupMinExits_spec tableC8 "Ф1.1" 120 50 false none).2 rowC8b rfl
  refine ⟨rfl, h.1, h.2.1, ?_⟩
  refine h.2.2.1 rowC8a (by simp [tableC8]) ?_
  rw [← minExitsMatches_iff]
  rfl
